import Mathlib

/-!
Verification of the conversation core of `smart_pdf_renamer`
(`src/AIConversation.py`): message construction and serialization,
the sliding memory window (`get_memory_messages`), token counters,
removal, and topic boundaries.

The Python classes `AIMessageContent`, `AIMessage` and `AIConversation`
are shallowly embedded as Lean structures and executable functions.
The external tokenizer (`tiktoken`, called through
`num_tokens_from_string`) is a parameter `tok : String → Nat`, and the
local-file image read performed by `AIMessageContent.set_content` is a
parameter `rf : String → Option String` returning the base64 payload of
a readable file and `none` for an unreadable one (the `OSError` branch).
-/

namespace AIConv

/-! Module-level constants of `AIConversation.py`. -/

def AIC_TYPE_TEXT : String := "text"

def AIC_TYPE_IMAGE_URL : String := "image_url"

def AIC_TYPE_FILE : String := "file"

def AIC_TYPE_INTERNAL : String := "internal"

def AIC_ROLE_USER : String := "user"

def AIC_ROLE_SYSTEM : String := "system"

def AIC_ROLE_ASSISTANT : String := "assistant"

def AIC_ROLE_DEVELOPER : String := "developer"

def AIC_ROLE_INTERNAL : String := "internal"

def AIC_DEFAULT_SYSTEM_PROMPT : String := "You are an AI assistant trying to be useful"

def AIC_DEFAULT_MEMORY_SIZE : Nat := 8192

def AIC_COMMAND_NEWTOPIC : String := "newtopic"

/-- The Python method `str.strip()` with no argument: removes leading and trailing
whitespace.  (`String.trim` is extensionally the same but is not
kernel-reducible, so the fixture conversations could not be evaluated
inside proofs with it.) -/
def pyStrip (s : String) : String :=
  ⟨((s.data.dropWhile Char.isWhitespace).reverse.dropWhile Char.isWhitespace).reverse⟩

/-- The stored fields of `AIMessageContent`: `__type`, `__image_url`,
`__text`.  `image_url` is an `Option` because Python distinguishes
`None` from a string; the transport array `__content` is derived data
and is not needed by any property proved here. -/
structure AIMessageContent where
  type : String
  image_url : Option String
  text : String
deriving DecidableEq, Repr

/-- `AIMessageContent.set_content`: stores the three fields; for an
`image_url` message whose URL is neither remote (`http...`) nor an
inline data URI, the file is read and `__image_url` becomes a base64
data URI; on `OSError` (`rf` returns `none`) `__image_url` keeps the
original path (only the transport array gets the error placeholder).
A `none` URL for an image message would raise in Python
(`None.startswith`); `AIMessage.__init__` never passes one. -/
def AIMessageContent.set_fields (rf : String → Option String)
    (msg_type : String) (msg_image_url : Option String) (msg_text : String) :
    AIMessageContent :=
  if msg_type = AIC_TYPE_IMAGE_URL then
    match msg_image_url with
    | some u =>
      if u.startsWith "http" then ⟨msg_type, some u, msg_text⟩
      else if u.startsWith "data:image" then ⟨msg_type, some u, msg_text⟩
      else
        match rf u with
        | some enc => ⟨msg_type, some ("data:image/jpeg;base64," ++ enc), msg_text⟩
        | none => ⟨msg_type, some u, msg_text⟩
    | none => ⟨msg_type, none, msg_text⟩
  else ⟨msg_type, msg_image_url, msg_text⟩

/-- The fields of `AIMessage`: `__role`, `__content`, `__sticky`,
`__estimated_tokens`, `__is_internal`. -/
structure AIMessage where
  role : String
  content : AIMessageContent
  sticky : Bool
  estimated_tokens : Nat
  is_internal : Bool
deriving DecidableEq, Repr

/-- `AIMessage.num_tokens_from_picture`: fixed placeholder, the
argument is ignored. -/
def AIMessage.num_tokens_from_picture (encoded_image : String) : Nat := 765

/-- `AIMessage.__init__(role, content_text, msg_type, content_image_url,
sticky)`.  Python raises `ValueError`; here the error message is
returned in `Except.error`.  `tok` is `num_tokens_from_string`.
All call sites of the constructor pass a real string for
`content_text`, so its defensive `is None` check is subsumed by the
`= ""` check. -/
def AIMessage.make (tok : String → Nat) (rf : String → Option String)
    (role : String) (content_text : String) (msg_type : String)
    (content_image_url : Option String) (sticky : Bool) :
    Except String AIMessage :=
  if ¬ (role = AIC_ROLE_USER ∨ role = AIC_ROLE_ASSISTANT ∨ role = AIC_ROLE_SYSTEM ∨
        role = AIC_ROLE_DEVELOPER ∨ role = AIC_ROLE_INTERNAL) then
    .error ("Invalid message role: " ++ role)
  else if msg_type = AIC_TYPE_IMAGE_URL then
    match content_image_url with
    | none => .error ("Missing Image URL for " ++ msg_type ++ " message")
    | some u =>
      if u = "" then .error ("Missing Image URL for " ++ msg_type ++ " message")
      else
        .ok { role := role,
              content := AIMessageContent.set_fields rf AIC_TYPE_IMAGE_URL (some u) content_text,
              sticky := sticky,
              estimated_tokens := AIMessage.num_tokens_from_picture u + tok content_text,
              is_internal := false }
  else if msg_type = AIC_TYPE_INTERNAL then
    if content_text = "" then .error ("Missing TEXT for " ++ msg_type ++ " message")
    else
      .ok { role := role,
            content := AIMessageContent.set_fields rf AIC_TYPE_INTERNAL none content_text,
            sticky := sticky,
            estimated_tokens := 0,
            is_internal := true }
  else if msg_type = AIC_TYPE_TEXT then
    if content_text = "" then .error ("Missing TEXT for " ++ msg_type ++ " message")
    else
      .ok { role := role,
            content := AIMessageContent.set_fields rf AIC_TYPE_TEXT none content_text,
            sticky := sticky,
            estimated_tokens := tok content_text,
            is_internal := false }
  else if msg_type = AIC_TYPE_FILE then
    .error ("Unsupported (yet) message type: " ++ msg_type)
  else
    .error ("Invalid message type: " ++ msg_type)

/-- The record written by `AIMessage.to_dict` (one line of the
persisted conversation file). -/
structure AIMessageRecord where
  role : String
  msg_type : String
  content_text : String
  content_image_url : Option String
  sticky : Bool
deriving DecidableEq, Repr

/-- `AIMessage.to_dict`. -/
def AIMessage.to_dict (m : AIMessage) : AIMessageRecord :=
  { role := m.role,
    msg_type := m.content.type,
    content_text := m.content.text,
    content_image_url := m.content.image_url,
    sticky := m.sticky }

/-- `AIMessage.from_dict`: `cls(d[role], d[msg_type], d[content_text],
d[content_image_url], d[sticky])`.  The positional order of the constructor
is `(role, content_text, msg_type, ...)`, so `d[msg_type]` lands in the
`content_text` slot and `d[content_text]` in the `msg_type` slot,
exactly as in the source. -/
def AIMessage.from_dict (tok : String → Nat) (rf : String → Option String)
    (d : AIMessageRecord) : Except String AIMessage :=
  AIMessage.make tok rf d.role d.msg_type d.content_text d.content_image_url d.sticky

/-- `AIMessage.set_role`. -/
def AIMessage.set_role (m : AIMessage) (role : String) : AIMessage :=
  { m with role := role }

/-- `AIMessage.set_sticky`. -/
def AIMessage.set_sticky (m : AIMessage) (sticky : Bool) : AIMessage :=
  { m with sticky := sticky }

/-- `AIMessage.set_content`: replaces the content object; the cached
token estimate is not recomputed. -/
def AIMessage.set_content (m : AIMessage) (content : AIMessageContent) : AIMessage :=
  { m with content := content }

/-- The fields of `AIConversation`: the message list and the running
token counters.  Counters are Python ints, embedded as `Int` (the
incremental updates subtract). -/
structure AIConversation where
  messages : List AIMessage
  max_memory_messages : Nat
  system_message_tokens : Int
  user_tokens : Int
  assistant_tokens : Int
  total_tokens : Int
  biggest_user_msg_tokens : Int
  biggest_assistant_msg_tokens : Int
  memory_user_tokens : Int
  memory_assistant_tokens : Int
  memory_total_tokens : Int
deriving DecidableEq, Repr

/-- `AIConversation.__init__(system_message, max_memory)`: installs the
(default or stripped supplied) system message, sticky, at index 0 and
initializes the counters.  The system text is never empty, so the
inner `AIMessage` construction cannot fail; the `.error` fallback is
unreachable and returns the same record the `.ok` branch carries. -/
def AIConversation.make (tok : String → Nat) (system_message : Option String)
    (max_memory : Nat) : AIConversation :=
  let the_system_msg : String :=
    match system_message with
    | some s => if 0 < (pyStrip s).length then pyStrip s else AIC_DEFAULT_SYSTEM_PROMPT
    | none => AIC_DEFAULT_SYSTEM_PROMPT
  let m0 : AIMessage :=
    match AIMessage.make tok (fun _ => none) AIC_ROLE_SYSTEM the_system_msg
        AIC_TYPE_TEXT none true with
    | .ok m => m
    | .error _ =>
      { role := AIC_ROLE_SYSTEM, content := ⟨AIC_TYPE_TEXT, none, the_system_msg⟩,
        sticky := true, estimated_tokens := tok the_system_msg, is_internal := false }
  let t : Int := m0.estimated_tokens
  { messages := [m0], max_memory_messages := max_memory,
    system_message_tokens := t, user_tokens := 0, assistant_tokens := 0,
    total_tokens := t, biggest_user_msg_tokens := 0, biggest_assistant_msg_tokens := 0,
    memory_user_tokens := 0, memory_assistant_tokens := 0, memory_total_tokens := t }

/-- `AIConversation.change_system_message`: replaces index 0 (or
appends to an empty list) with a fresh sticky system text message.
Counters are not touched.  Construction of the message can raise
(empty text), hence the `Except`. -/
def AIConversation.change_system_message (tok : String → Nat)
    (c : AIConversation) (new_system_message : String) :
    Except String AIConversation :=
  match AIMessage.make tok (fun _ => none) AIC_ROLE_SYSTEM new_system_message
      AIC_TYPE_TEXT none true with
  | .error e => .error e
  | .ok m =>
    .ok { c with messages :=
      match c.messages with
      | [] => [m]
      | _ :: rest => m :: rest }

/-- `AIConversation.add_message(msg_role, msg_text, msg_type,
image_url, is_sticky)`.  The result is the state of `self` after the
call paired with the raised error, if any: the source validates the
role and constructs the `AIMessage` before touching any field, so both
error exits return the conversation unchanged.  Python defaults:
`msg_type = "text"`, `image_url = None`, `is_sticky = False`. -/
def AIConversation.add_message (tok : String → Nat) (rf : String → Option String)
    (c : AIConversation) (msg_role : String) (msg_text : String)
    (msg_type : String) (image_url : Option String) (is_sticky : Bool) :
    AIConversation × Option String :=
  if ¬ (msg_role = AIC_ROLE_USER ∨ msg_role = AIC_ROLE_ASSISTANT ∨
        msg_role = AIC_ROLE_SYSTEM ∨ msg_role = AIC_ROLE_INTERNAL ∨
        msg_role = AIC_ROLE_DEVELOPER) then
    (c, some ("Invalid message role: " ++ msg_role))
  else
    match AIMessage.make tok rf msg_role msg_text msg_type image_url is_sticky with
    | .error e => (c, some e)
    | .ok new_msg =>
      let pair : List AIMessage × Int :=
        if msg_role = AIC_ROLE_SYSTEM ∨ msg_role = AIC_ROLE_DEVELOPER then
          match c.messages with
          | [] => ([new_msg], 0)
          | m0 :: rest => (new_msg :: rest, (m0.estimated_tokens : Int))
        else if c.messages.length > c.max_memory_messages + 2 ∧
            ¬ msg_role = AIC_ROLE_INTERNAL then
          (c.messages,
           (((c.messages.get? (c.messages.length - c.max_memory_messages - 1)).map
              (fun m => (m.estimated_tokens : Int))).getD 0))
        else (c.messages, 0)
      let l_tokenstoremove : Int := pair.2
      let msgs1 : List AIMessage :=
        if msg_role = AIC_ROLE_USER ∨ msg_role = AIC_ROLE_ASSISTANT ∨
            msg_role = AIC_ROLE_INTERNAL then
          pair.1 ++ [new_msg]
        else pair.1
      let t : Int := new_msg.estimated_tokens
      if msg_role = AIC_ROLE_USER then
        ({ c with
            messages := msgs1,
            user_tokens := c.user_tokens + t - l_tokenstoremove,
            total_tokens := c.total_tokens + t,
            memory_user_tokens := c.memory_user_tokens + t - l_tokenstoremove,
            memory_total_tokens := c.memory_total_tokens + t - l_tokenstoremove,
            biggest_user_msg_tokens :=
              if t > c.biggest_user_msg_tokens then t else c.biggest_user_msg_tokens },
         none)
      else if msg_role = AIC_ROLE_ASSISTANT then
        ({ c with
            messages := msgs1,
            assistant_tokens := c.assistant_tokens + t - l_tokenstoremove,
            total_tokens := c.total_tokens + t,
            memory_assistant_tokens := c.memory_assistant_tokens + t - l_tokenstoremove,
            memory_total_tokens := c.memory_total_tokens + t - l_tokenstoremove,
            biggest_assistant_msg_tokens :=
              if t > c.biggest_assistant_msg_tokens then t
              else c.biggest_assistant_msg_tokens },
         none)
      else if msg_role = AIC_ROLE_SYSTEM then
        ({ c with
            messages := msgs1,
            system_message_tokens := t,
            total_tokens := c.total_tokens + t - l_tokenstoremove,
            memory_total_tokens := c.memory_total_tokens + t - l_tokenstoremove },
         none)
      else
        -- `internal` updates no counter; `developer` falls through the
        -- role `elif` chain without touching any counter either.
        ({ c with messages := msgs1 }, none)

/-- The token count `add_message` subtracts when the store is already
longer than `max_memory_messages + 2`: the estimate of
`messages[-max_memory_messages-1]`, i.e. the message at index
`len - max_memory_messages - 1` from the start, read before the
append. -/
def evictedTokens (c : AIConversation) : Int :=
  (((c.messages.get? (c.messages.length - c.max_memory_messages - 1)).map
    (fun m => (m.estimated_tokens : Int))).getD 0)

/-- `add_message` restricted to the successful state (Python call sites
that do not raise). -/
def AIConversation.addOk (tok : String → Nat) (rf : String → Option String)
    (c : AIConversation) (msg_role : String) (msg_text : String)
    (msg_type : String) (image_url : Option String) (is_sticky : Bool) :
    AIConversation :=
  (c.add_message tok rf msg_role msg_text msg_type image_url is_sticky).1

/-- `AIConversation.new_topic`: appends the internal `newtopic` marker
through `add_message` (which always succeeds on it). -/
def AIConversation.new_topic (tok : String → Nat) (rf : String → Option String)
    (c : AIConversation) : AIConversation :=
  c.addOk tok rf AIC_ROLE_INTERNAL AIC_COMMAND_NEWTOPIC AIC_TYPE_INTERNAL none false

/-- The `new topic` test of the `get_memory_messages` walk:
`message.get_role() == AIC_ROLE_INTERNAL and message.get_text() ==
AIC_COMMAND_NEWTOPIC`. -/
def isNewTopicMarker (m : AIMessage) : Bool :=
  m.role = AIC_ROLE_INTERNAL && m.content.text = AIC_COMMAND_NEWTOPIC

/-- The reversed-order walk of `get_memory_messages`: collect while the
working list is below the limit, then only sticky messages; an
encountered marker stops everything and raises the flag. -/
def gmm_loop (max_mem : Nat) : List AIMessage → List AIMessage →
    List AIMessage × Bool
  | [], acc => (acc, false)
  | m :: rest, acc =>
    if max_mem ≤ acc.length then
      if m.sticky then gmm_loop max_mem rest (acc ++ [m])
      else gmm_loop max_mem rest acc
    else if isNewTopicMarker m then (acc, true)
    else gmm_loop max_mem rest (acc ++ [m])

/-- `AIConversation.get_memory_messages`.  When the marker was found
the system message `messages[0]` is appended (Python would raise on an
empty list; a conversation always has one). -/
def AIConversation.get_memory_messages (c : AIConversation) : List AIMessage :=
  let r := gmm_loop c.max_memory_messages c.messages.reverse []
  let tmp : List AIMessage :=
    if r.2 then
      r.1 ++ (match c.messages with
              | [] => []
              | m0 :: _ => [m0])
    else r.1
  tmp.reverse

/-- `AIConversation.count_non_sticky_messages`. -/
def AIConversation.count_non_sticky_messages (c : AIConversation) : Nat :=
  c.messages.countP (fun m => !m.sticky)

/-- `AIConversation.restart`: keeps only the system message; no counter
is touched. -/
def AIConversation.restart (c : AIConversation) : AIConversation :=
  { c with messages :=
      match c.messages with
      | [] => []
      | m0 :: _ => [m0] }

/-- The body of the `recalculate_tokens` loop, one message at a time;
`i` is the Python loop counter (incremented before use, so the first
message is processed with `i = 1`), `len` is the length of the full
message list and `max` the memory bound. -/
def recalc_aux (len max : Nat) : List AIMessage → Nat → AIConversation →
    AIConversation
  | [], _, c => c
  | m :: rest, i0, c =>
    let i := i0 + 1
    let t : Int := m.estimated_tokens
    let c' : AIConversation :=
      if m.role = AIC_ROLE_USER then
        let c1 := { c with
                    user_tokens := c.user_tokens + t,
                    total_tokens := c.total_tokens + t }
        let c2 :=
          if (i : Int) > (len : Int) - (max : Int) then
            { c1 with
              memory_user_tokens := c1.memory_user_tokens + t,
              memory_total_tokens := c1.memory_total_tokens + t }
          else c1
        if t > c2.biggest_user_msg_tokens then
          { c2 with biggest_user_msg_tokens := t }
        else c2
      else if m.role = AIC_ROLE_ASSISTANT then
        let c1 := { c with
                    assistant_tokens := c.assistant_tokens + t,
                    total_tokens := c.total_tokens + t }
        let c2 :=
          if (i : Int) > (len : Int) - (max : Int) then
            { c1 with
              memory_assistant_tokens := c1.memory_assistant_tokens + t,
              memory_total_tokens := c1.memory_total_tokens + t }
          else c1
        if t > c2.biggest_assistant_msg_tokens then
          { c2 with biggest_assistant_msg_tokens := t }
        else c2
      else if m.role = AIC_ROLE_SYSTEM ∨ m.role = AIC_ROLE_DEVELOPER then
        { c with
          system_message_tokens := t,
          total_tokens := c.total_tokens + t,
          memory_total_tokens := c.memory_total_tokens + t }
      else c
    recalc_aux len max rest i c'

/-- `AIConversation.recalculate_tokens`: zeroes every counter except
`system_message_tokens` (which the source does not reset) and replays
the full message list. -/
def AIConversation.recalculate_tokens (c : AIConversation) : AIConversation :=
  let c0 := { c with
              user_tokens := 0, assistant_tokens := 0, total_tokens := 0,
              memory_user_tokens := 0, memory_assistant_tokens := 0,
              memory_total_tokens := 0, biggest_user_msg_tokens := 0,
              biggest_assistant_msg_tokens := 0 }
  recalc_aux c.messages.length c.max_memory_messages c.messages 0 c0

/-- First removal loop of `remove_messages` (`remove_sticky=False`
branch), acting on the reversed tail (indices `len-1` down to `1`):
delete each non-sticky message and break once `target` deletions were
made.  Matches the Python loop exactly, including the behaviour when
`target = 0` (then `removed + 1 = target` never holds). -/
def first_removal_loop : List AIMessage → Nat → Nat → List AIMessage
  | [], _, _ => []
  | m :: xs, removed, target =>
    if m.sticky then m :: first_removal_loop xs removed target
    else if removed + 1 = target then xs
    else first_removal_loop xs (removed + 1) target

/-- Second (tail-truncation) loop of `remove_messages`
(`remove_sticky=False` branch), acting on the whole reversed list:
up to `k` times, pop the last message if it is not sticky, else stop.
Python raises `IndexError` when the list has been emptied; that case
returns the empty list here. -/
def second_removal_loop : Nat → List AIMessage → List AIMessage
  | 0, xs => xs
  | _ + 1, [] => []
  | k + 1, m :: xs => if m.sticky then m :: xs else second_removal_loop k xs

/-- `AIConversation.remove_messages(remove_n_messages, remove_sticky)`.
`remove_n_messages` is a Python int, hence `Int` with the negativity
check.  Ends with the mandatory full `recalculate_tokens` whenever a
removal was attempted. -/
def AIConversation.remove_messages (c : AIConversation)
    (remove_n_messages : Int) (remove_sticky : Bool) :
    Except String AIConversation :=
  if remove_n_messages < 0 then
    .error "You cannot remove a negative number of messages"
  else
    let msgs_to_remove : Nat :=
      min remove_n_messages.toNat (c.messages.length - 1)
    if 0 < msgs_to_remove then
      let msgs' : List AIMessage :=
        if remove_sticky then
          c.messages.take (c.messages.length - msgs_to_remove)
        else
          let k := min msgs_to_remove c.count_non_sticky_messages
          let after_first : List AIMessage :=
            match c.messages with
            | [] => []
            | m0 :: rest => m0 :: (first_removal_loop rest.reverse 0 k).reverse
          (second_removal_loop k after_first.reverse).reverse
      .ok (AIConversation.recalculate_tokens { c with messages := msgs' })
    else .ok c

/-! Concrete instantiations used by the example conversations: a
length-based stand-in for the external tokenizer, and a file reader
with no readable files. -/

def tokLen : String → Nat := String.length

def rfNone : String → Option String := fun _ => none

/-! Fixture conversations, each built exclusively through the public
operations. -/

/-- The conversation of C3: `max_memory_messages = 2`, built by ADDING the
system message "S" (so it carries the `add_message` default
`is_sticky = False`), then user "A", sticky user "B", assistant "C",
user "D". -/
def c3conv : AIConversation :=
  ((((((AIConversation.make tokLen none 2).addOk tokLen rfNone
      AIC_ROLE_SYSTEM "S" AIC_TYPE_TEXT none false).addOk tokLen rfNone
      AIC_ROLE_USER "A" AIC_TYPE_TEXT none false).addOk tokLen rfNone
      AIC_ROLE_USER "B" AIC_TYPE_TEXT none true).addOk tokLen rfNone
      AIC_ROLE_ASSISTANT "C" AIC_TYPE_TEXT none false).addOk tokLen rfNone
      AIC_ROLE_USER "D" AIC_TYPE_TEXT none false)

/-- A conversation with a non-sticky system message (installed through
`add_message`), no sticky non-system messages, no topic markers, and
two user messages exceeding the window `max_memory_messages = 1`. -/
def c1xconv : AIConversation :=
  (((AIConversation.make tokLen none 1).addOk tokLen rfNone
      AIC_ROLE_SYSTEM "S" AIC_TYPE_TEXT none false).addOk tokLen rfNone
      AIC_ROLE_USER "u1" AIC_TYPE_TEXT none false).addOk tokLen rfNone
      AIC_ROLE_USER "u2" AIC_TYPE_TEXT none false

/-- A conversation with a non-sticky system message, one sticky user
message "X", then a `new_topic()` marker, then user "u1";
`max_memory_messages = 1`. -/
def c2xconv : AIConversation :=
  ((((AIConversation.make tokLen none 1).addOk tokLen rfNone
      AIC_ROLE_SYSTEM "S" AIC_TYPE_TEXT none false).addOk tokLen rfNone
      AIC_ROLE_USER "X" AIC_TYPE_TEXT none true).new_topic tokLen rfNone).addOk tokLen rfNone
      AIC_ROLE_USER "u1" AIC_TYPE_TEXT none false

/-- A sticky-system conversation for the amended window invariant:
system "S" from the constructor, then users "u1", "u2",
`max_memory_messages = 1`. -/
def c1wconv : AIConversation :=
  ((AIConversation.make tokLen (some "S") 1).addOk tokLen rfNone
      AIC_ROLE_USER "u1" AIC_TYPE_TEXT none false).addOk tokLen rfNone
      AIC_ROLE_USER "u2" AIC_TYPE_TEXT none false

/-- A sticky-system conversation with a sticky "X", a topic marker and
a trailing "u1", for the amended topic-boundary invariant;
`max_memory_messages = 1`. -/
def c2wconv : AIConversation :=
  (((AIConversation.make tokLen (some "S") 1).addOk tokLen rfNone
      AIC_ROLE_USER "X" AIC_TYPE_TEXT none true).new_topic tokLen rfNone).addOk tokLen rfNone
      AIC_ROLE_USER "u1" AIC_TYPE_TEXT none false

/-- One user message "aa" on top of system "S". -/
def c5conv : AIConversation :=
  (AIConversation.make tokLen (some "S") 8192).addOk tokLen rfNone
    AIC_ROLE_USER "aa" AIC_TYPE_TEXT none false

/-- `max_memory_messages = 1` and five messages (system "S" plus four
user messages of 2, 3, 4 and 5 tokens), so that the next append
triggers the eviction accounting (`len = 5 > max + 2 = 3`). -/
def c6conv : AIConversation :=
  (((((AIConversation.make tokLen (some "S") 1).addOk tokLen rfNone
      AIC_ROLE_USER "aa" AIC_TYPE_TEXT none false).addOk tokLen rfNone
      AIC_ROLE_USER "bbb" AIC_TYPE_TEXT none false).addOk tokLen rfNone
      AIC_ROLE_USER "cccc" AIC_TYPE_TEXT none false).addOk tokLen rfNone
      AIC_ROLE_USER "ddddd" AIC_TYPE_TEXT none false)

/-- History [S, X(sticky), A, B] with sticky system. -/
def c7conv : AIConversation :=
  ((((AIConversation.make tokLen (some "S") 5).addOk tokLen rfNone
      AIC_ROLE_USER "X" AIC_TYPE_TEXT none true).addOk tokLen rfNone
      AIC_ROLE_USER "A" AIC_TYPE_TEXT none false).addOk tokLen rfNone
      AIC_ROLE_USER "B" AIC_TYPE_TEXT none false)

/-- A small conversation used as the prior state for the
error-atomicity and system-replacement witnesses. -/
def c9conv : AIConversation :=
  (AIConversation.make tokLen (some "S") 3).addOk tokLen rfNone
    AIC_ROLE_USER "hi" AIC_TYPE_TEXT none false

/-! Explicit message values appearing in the fixtures (`tokLen` token
counts). -/

def mS_ns : AIMessage :=
  ⟨AIC_ROLE_SYSTEM, ⟨AIC_TYPE_TEXT, none, "S"⟩, false, 1, false⟩

def mS_st : AIMessage :=
  ⟨AIC_ROLE_SYSTEM, ⟨AIC_TYPE_TEXT, none, "S"⟩, true, 1, false⟩

def mA3 : AIMessage := ⟨AIC_ROLE_USER, ⟨AIC_TYPE_TEXT, none, "A"⟩, false, 1, false⟩

def mB3 : AIMessage := ⟨AIC_ROLE_USER, ⟨AIC_TYPE_TEXT, none, "B"⟩, true, 1, false⟩

def mC3 : AIMessage := ⟨AIC_ROLE_ASSISTANT, ⟨AIC_TYPE_TEXT, none, "C"⟩, false, 1, false⟩

def mD3 : AIMessage := ⟨AIC_ROLE_USER, ⟨AIC_TYPE_TEXT, none, "D"⟩, false, 1, false⟩

def mU1 : AIMessage := ⟨AIC_ROLE_USER, ⟨AIC_TYPE_TEXT, none, "u1"⟩, false, 2, false⟩

def mU2 : AIMessage := ⟨AIC_ROLE_USER, ⟨AIC_TYPE_TEXT, none, "u2"⟩, false, 2, false⟩

def mX_st : AIMessage := ⟨AIC_ROLE_USER, ⟨AIC_TYPE_TEXT, none, "X"⟩, true, 1, false⟩

def mMarker : AIMessage :=
  ⟨AIC_ROLE_INTERNAL, ⟨AIC_TYPE_INTERNAL, none, AIC_COMMAND_NEWTOPIC⟩, false, 0, true⟩

def mA7 : AIMessage := ⟨AIC_ROLE_USER, ⟨AIC_TYPE_TEXT, none, "A"⟩, false, 1, false⟩

def mB7 : AIMessage := ⟨AIC_ROLE_USER, ⟨AIC_TYPE_TEXT, none, "B"⟩, false, 1, false⟩

/-! ## Theorems -/

/-! Lemmas about the `get_memory_messages` walk. -/

/-- Walking over a segment with no sticky message and no topic marker
just collects elements until the window is full. -/
theorem gmm_loop_passthrough (M : Nat) (xs : List AIMessage) :
    ∀ (ys acc : List AIMessage),
    (∀ m ∈ xs, isNewTopicMarker m = false ∧ m.sticky = false) →
    gmm_loop M (xs ++ ys) acc = gmm_loop M ys (acc ++ xs.take (M - acc.length)) := by
  induction xs with
  | nil => intro ys acc _; simp
  | cons x xs ih =>
    intro ys acc h
    obtain ⟨hxm, hxs⟩ := h x (List.mem_cons_self x xs)
    have hrest : ∀ m ∈ xs, isNewTopicMarker m = false ∧ m.sticky = false :=
      fun m hm => h m (List.mem_cons_of_mem x hm)
    by_cases hM : M ≤ acc.length
    · have h0 : M - acc.length = 0 := Nat.sub_eq_zero_of_le hM
      rw [List.cons_append, show gmm_loop M (x :: (xs ++ ys)) acc =
            gmm_loop M (xs ++ ys) acc by simp [gmm_loop, hM, hxs],
          ih ys acc hrest]
      have h0' : M - (acc ++ xs.take (M - acc.length)).length = 0 := by
        simp [h0]
      simp [h0, h0']
    · have h1 : M - acc.length = (M - (acc.length + 1)) + 1 := by omega
      rw [List.cons_append, show gmm_loop M (x :: (xs ++ ys)) acc =
            gmm_loop M (xs ++ ys) (acc ++ [x]) by simp [gmm_loop, hM, hxm],
          ih ys (acc ++ [x]) hrest]
      rw [h1, List.take_succ_cons]
      simp

/-- A final sticky non-marker element is always collected, in both
regimes of the walk. -/
theorem gmm_loop_single (M : Nat) (S : AIMessage) (acc : List AIMessage)
    (hm : isNewTopicMarker S = false) (hs : S.sticky = true) :
    gmm_loop M [S] acc = (acc ++ [S], false) := by
  by_cases hM : M ≤ acc.length <;> simp [gmm_loop, hM, hm, hs]

/-- Once the window is full, only sticky messages are ever added. -/
theorem gmm_loop_full_only_sticky (M : Nat) (xs : List AIMessage) :
    ∀ (acc : List AIMessage), M ≤ acc.length →
    ∀ m ∈ (gmm_loop M xs acc).1, m ∈ acc ∨ m.sticky = true := by
  induction xs with
  | nil => intro acc _ m hm; exact Or.inl hm
  | cons x xs ih =>
    intro acc hM m hm
    by_cases hx : x.sticky
    · rw [show gmm_loop M (x :: xs) acc = gmm_loop M xs (acc ++ [x]) by
          simp [gmm_loop, hM, hx]] at hm
      rcases ih (acc ++ [x]) (by simp; omega) m hm with h | h
      · rcases List.mem_append.mp h with h | h
        · exact Or.inl h
        · simp only [List.mem_singleton] at h; subst h; exact Or.inr hx
      · exact Or.inr h
    · rw [show gmm_loop M (x :: xs) acc = gmm_loop M xs acc by
          simp [gmm_loop, hM, hx]] at hm
      exact ih acc hM m hm

/-- Every non-sticky message collected by a walk over
`as ++ marker :: bs`, where `as` holds no marker and the marker is not
sticky, comes from the accumulator or from `as` — never from beyond
the marker. -/
theorem gmm_loop_nonsticky_before_marker (M : Nat) (as : List AIMessage) :
    ∀ (bs acc : List AIMessage) (mk : AIMessage),
    (∀ m ∈ as, isNewTopicMarker m = false) →
    isNewTopicMarker mk = true → mk.sticky = false →
    ∀ m ∈ (gmm_loop M (as ++ mk :: bs) acc).1, m.sticky = false →
    m ∈ acc ∨ m ∈ as := by
  induction as with
  | nil =>
    intro bs acc mk _ hmk hmks m hm hms
    simp only [List.nil_append] at hm
    by_cases hM : M ≤ acc.length
    · rw [show gmm_loop M (mk :: bs) acc = gmm_loop M bs acc by
          simp [gmm_loop, hM, hmks]] at hm
      rcases gmm_loop_full_only_sticky M bs acc hM m hm with h | h
      · exact Or.inl h
      · rw [hms] at h; cases h
    · rw [show gmm_loop M (mk :: bs) acc = (acc, true) by
          simp [gmm_loop, hM, hmk]] at hm
      exact Or.inl hm
  | cons a as ih =>
    intro bs acc mk has hmk hmks m hm hms
    have ham : isNewTopicMarker a = false := has a (List.mem_cons_self a as)
    have has' : ∀ m ∈ as, isNewTopicMarker m = false :=
      fun m hm => has m (List.mem_cons_of_mem a hm)
    rw [List.cons_append] at hm
    by_cases hM : M ≤ acc.length
    · by_cases hsa : a.sticky
      · rw [show gmm_loop M (a :: (as ++ mk :: bs)) acc =
              gmm_loop M (as ++ mk :: bs) (acc ++ [a]) by
            simp [gmm_loop, hM, hsa]] at hm
        rcases ih bs (acc ++ [a]) mk has' hmk hmks m hm hms with h | h
        · rcases List.mem_append.mp h with h | h
          · exact Or.inl h
          · simp only [List.mem_singleton] at h; subst h
            rw [hms] at hsa; cases hsa
        · exact Or.inr (List.mem_cons_of_mem a h)
      · rw [show gmm_loop M (a :: (as ++ mk :: bs)) acc =
              gmm_loop M (as ++ mk :: bs) acc by
            simp [gmm_loop, hM, hsa]] at hm
        rcases ih bs acc mk has' hmk hmks m hm hms with h | h
        · exact Or.inl h
        · exact Or.inr (List.mem_cons_of_mem a h)
    · rw [show gmm_loop M (a :: (as ++ mk :: bs)) acc =
            gmm_loop M (as ++ mk :: bs) (acc ++ [a]) by
          simp [gmm_loop, hM, ham]] at hm
      rcases ih bs (acc ++ [a]) mk has' hmk hmks m hm hms with h | h
      · rcases List.mem_append.mp h with h | h
        · exact Or.inl h
        · simp only [List.mem_singleton] at h
          exact Or.inr (by rw [h]; exact List.mem_cons_self a as)
      · exact Or.inr (List.mem_cons_of_mem a h)

/-- A sticky final element is in the collected list unless the walk
broke at a marker (flag `true`). -/
theorem gmm_loop_last_sticky_mem (M : Nat) (xs : List AIMessage) :
    ∀ (acc : List AIMessage) (S : AIMessage), S.sticky = true →
    S ∈ (gmm_loop M (xs ++ [S]) acc).1 ∨ (gmm_loop M (xs ++ [S]) acc).2 = true := by
  induction xs with
  | nil =>
    intro acc S hs
    simp only [List.nil_append]
    by_cases hM : M ≤ acc.length
    · left; simp [gmm_loop, hM, hs]
    · by_cases hm : isNewTopicMarker S
      · right; simp [gmm_loop, hM, hm]
      · left; simp [gmm_loop, hM, hm]
  | cons x xs ih =>
    intro acc S hs
    rw [List.cons_append]
    by_cases hM : M ≤ acc.length
    · by_cases hx : x.sticky
      · rw [show gmm_loop M (x :: (xs ++ [S])) acc =
              gmm_loop M (xs ++ [S]) (acc ++ [x]) by simp [gmm_loop, hM, hx]]
        exact ih (acc ++ [x]) S hs
      · rw [show gmm_loop M (x :: (xs ++ [S])) acc =
              gmm_loop M (xs ++ [S]) acc by simp [gmm_loop, hM, hx]]
        exact ih acc S hs
    · by_cases hm : isNewTopicMarker x
      · right; simp [gmm_loop, hM, hm]
      · rw [show gmm_loop M (x :: (xs ++ [S])) acc =
              gmm_loop M (xs ++ [S]) (acc ++ [x]) by simp [gmm_loop, hM, hm]]
        exact ih (acc ++ [x]) S hs

/-- Successful text-message construction, in components. -/
theorem AIMessage.make_text_ok (tok : String → Nat) (rf : String → Option String)
    (role t : String) (st : Bool)
    (hrole : role = AIC_ROLE_USER ∨ role = AIC_ROLE_ASSISTANT ∨ role = AIC_ROLE_SYSTEM ∨
      role = AIC_ROLE_DEVELOPER ∨ role = AIC_ROLE_INTERNAL)
    (ht : ¬ t = "") :
    AIMessage.make tok rf role t AIC_TYPE_TEXT none st =
      .ok ⟨role, ⟨AIC_TYPE_TEXT, none, t⟩, st, tok t, false⟩ := by
  unfold AIMessage.make
  rw [if_neg (not_not_intro hrole), if_neg (by decide : ¬ (AIC_TYPE_TEXT = AIC_TYPE_IMAGE_URL)),
    if_neg (by decide : ¬ (AIC_TYPE_TEXT = AIC_TYPE_INTERNAL)), if_pos rfl, if_neg ht]
  rfl

/-- Successful internal-message construction, in components. -/
theorem AIMessage.make_internal_ok (tok : String → Nat) (rf : String → Option String)
    (role t : String) (st : Bool)
    (hrole : role = AIC_ROLE_USER ∨ role = AIC_ROLE_ASSISTANT ∨ role = AIC_ROLE_SYSTEM ∨
      role = AIC_ROLE_DEVELOPER ∨ role = AIC_ROLE_INTERNAL)
    (ht : ¬ t = "") :
    AIMessage.make tok rf role t AIC_TYPE_INTERNAL none st =
      .ok ⟨role, ⟨AIC_TYPE_INTERNAL, none, t⟩, st, 0, true⟩ := by
  unfold AIMessage.make
  rw [if_neg (not_not_intro hrole),
    if_neg (by decide : ¬ (AIC_TYPE_INTERNAL = AIC_TYPE_IMAGE_URL)), if_pos rfl, if_neg ht]
  rfl

/-- Claim C3: with `max_memory_messages = 2` and the history built by
adding system "S" (non-sticky, `add_message` default), user "A"
(not sticky), sticky user "B", assistant "C", user "D",
`get_memory_messages()` returns exactly [B, C, D], the system message
being excluded since no topic boundary was encountered. -/
theorem C3_scenario_window :
    c3conv.messages = [mS_ns, mA3, mB3, mC3, mD3] ∧
    c3conv.get_memory_messages = [mB3, mC3, mD3] := by
  constructor <;> rfl

/-- Claim C1, counterexample: a conversation with no sticky non-system
messages and no topic markers (`c1xconv`: non-sticky system "S"
installed through `add_message`, then "u1", "u2",
`max_memory_messages = 1`) for which `get_memory_messages()` does NOT
return the system message in front of the `min(M, N)` trailing
messages: the system message is missing entirely. -/
theorem C1_counterexample :
    c1xconv.messages = [mS_ns, mU1, mU2] ∧
    c1xconv.get_memory_messages = [mU2] ∧
    mS_ns ∉ c1xconv.get_memory_messages := by
  refine ⟨by rfl, by rfl, ?_⟩
  decide

/-- Claim C2, counterexample: in `c2xconv` (non-sticky system "S",
sticky user "X", `new_topic()` marker, user "u1",
`max_memory_messages = 1`) a later `get_memory_messages()` returns the
sticky message "X" even though it is older than the most recent
new-topic marker, and omits the system message. -/
theorem C2_counterexample :
    c2xconv.messages = [mS_ns, mX_st, mMarker, mU1] ∧
    isNewTopicMarker mMarker = true ∧
    mX_st ∈ c2xconv.get_memory_messages ∧
    mS_ns ∉ c2xconv.get_memory_messages := by
  refine ⟨by rfl, by rfl, by decide, by decide⟩

/-- Claim C4: serializing a plain user text message "hello" with
`to_dict` and deserializing with `from_dict` does not round-trip: the
swapped constructor arguments make `from_dict` fail with
`Invalid message type: hello`. -/
theorem C4_roundtrip_fails :
    (AIMessage.make tokLen rfNone AIC_ROLE_USER "hello" AIC_TYPE_TEXT none false).bind
      (fun m => AIMessage.from_dict tokLen rfNone m.to_dict) =
      .error "Invalid message type: hello" := by
  rfl

/-- Claim C5: after the public mutating operation `restart()` on a
conversation holding system "S" (1 token) and user "aa" (2 tokens),
`total_tokens` is still 3 while a `recalculate_tokens()` rescan of the
same message list yields 1 — the counters do not match the rescan. -/
theorem C5_restart_stale_counters :
    c5conv.restart.total_tokens = 3 ∧
    c5conv.restart.recalculate_tokens.total_tokens = 1 := by
  constructor <;> rfl

/-- Claim C6, counterexample: appending user "eeeeee" (6 tokens) to
`c6conv` (5 messages, `max_memory_messages = 1`) subtracts the evicted
tokens of the evicted message from the all-time `user_tokens` counter (so it is not
left untouched as the claim states), and the memory counter update
does not match the reading the claim gives of position
`len - max_memory_messages - 1` *from the end* (Python index
`-(len - max - 1)`) either — the code evicts index
`len - max - 1` from the start. -/
theorem C6_counterexample :
    ¬ ((c6conv.addOk tokLen rfNone AIC_ROLE_USER "eeeeee" AIC_TYPE_TEXT none false).user_tokens
        = c6conv.user_tokens + (tokLen "eeeeee" : Int)) ∧
    ¬ ((c6conv.addOk tokLen rfNone AIC_ROLE_USER "eeeeee" AIC_TYPE_TEXT none false).memory_user_tokens
        = c6conv.memory_user_tokens + (tokLen "eeeeee" : Int) -
          (((c6conv.messages.reverse.get?
              (c6conv.messages.length - c6conv.max_memory_messages - 2)).map
            (fun m => (m.estimated_tokens : Int))).getD 0)) := by
  constructor <;> decide

/-- Claim C7: `remove_messages(1, remove_sticky=False)` on the history
[S, X(sticky), A, B] removes TWO messages (B in the backward walk, then
A in the leftover tail-truncation loop), leaving [S, X] — more than the
requested maximum of 1. -/
theorem C7_removes_too_many :
    c7conv.messages = [mS_st, mX_st, mA7, mB7] ∧
    (c7conv.remove_messages 1 false).map (fun c => c.messages) =
      .ok [mS_st, mX_st] := by
  constructor <;> rfl

/-- Claim C8, counterexample: an image message with caption "hi" gets
`estimated_tokens = 765 + tok "hi" = 767`, not the fixed constant 765
the claim states. -/
theorem C8_counterexample :
    (AIMessage.make tokLen rfNone AIC_ROLE_USER "hi" AIC_TYPE_IMAGE_URL
        (some "http://x") false).toOption.map (fun m => m.estimated_tokens) ≠ some 765 ∧
    (AIMessage.make tokLen rfNone AIC_ROLE_USER "hi" AIC_TYPE_IMAGE_URL
        (some "http://x") false).toOption.map (fun m => m.estimated_tokens) = some 767 := by
  constructor
  · decide
  · rfl

/-- Claim C1 (amended): for every conversation whose system message at
index 0 is sticky — as the constructor and `change_system_message`
install it — with no sticky non-system messages and no topic markers,
`get_memory_messages()` returns exactly the system message followed by
the `min(M, N)` trailing messages (`N` non-system messages in total),
in chronological order. -/
theorem C1_window_invariant (c : AIConversation) (S : AIMessage)
    (rest : List AIMessage)
    (hmsg : c.messages = S :: rest)
    (hrole : S.role = AIC_ROLE_SYSTEM)
    (hsticky : S.sticky = true)
    (hns : ∀ m ∈ rest, m.sticky = false)
    (hnm : ∀ m ∈ rest, isNewTopicMarker m = false) :
    c.get_memory_messages = S :: rest.drop (rest.length - c.max_memory_messages) := by
  have hSm : isNewTopicMarker S = false := by
    simp [isNewTopicMarker, hrole, AIC_ROLE_SYSTEM, AIC_ROLE_INTERNAL]
  have hmem : ∀ m ∈ rest.reverse, isNewTopicMarker m = false ∧ m.sticky = false :=
    fun m hm => ⟨hnm m (List.mem_reverse.mp hm), hns m (List.mem_reverse.mp hm)⟩
  have hrw : (rest.reverse.take c.max_memory_messages).reverse
      = rest.drop (rest.length - c.max_memory_messages) := by
    rw [← List.rtake_eq_reverse_take_reverse]
    rfl
  simp only [AIConversation.get_memory_messages, hmsg, List.reverse_cons]
  rw [gmm_loop_passthrough c.max_memory_messages rest.reverse [S] [] hmem,
    gmm_loop_single c.max_memory_messages S _ hSm hsticky]
  simp [hrw]

/-- Witness for the amended C1: system "S" (sticky, from the
constructor), users "u1", "u2", `max_memory_messages = 1`: the window
is the system message plus the trailing message "u2". -/
theorem C1_window_invariant_witness :
    c1wconv.get_memory_messages = [mS_st, mU2] := by
  have h := C1_window_invariant c1wconv mS_st [mU1, mU2] (by decide) (by decide)
    (by decide) (by decide) (by decide)
  exact h.trans (by decide)

/-- Claim C2 (amended): after `new_topic()`, a later
`get_memory_messages()` contains no NON-sticky message older than the
most recent new-topic marker (apart from, possibly, the system message
itself, which is appended when the marker is reached); sticky messages
older than the marker can still appear, because once the window is
full the walk skips the marker test and keeps collecting stickies.
The result always contains the system message PROVIDED the system
message is sticky. -/
theorem C2_topic_boundary (c : AIConversation) (S mk : AIMessage)
    (pre post : List AIMessage)
    (hmsg : c.messages = S :: (pre ++ mk :: post))
    (hmk : isNewTopicMarker mk = true)
    (hmks : mk.sticky = false)
    (hpost : ∀ m ∈ post, isNewTopicMarker m = false)
    (hsticky : S.sticky = true) :
    (∀ m ∈ c.get_memory_messages, m.sticky = false → m = S ∨ m ∈ post) ∧
    S ∈ c.get_memory_messages := by
  have hrev : (S :: (pre ++ mk :: post)).reverse
      = post.reverse ++ mk :: (pre.reverse ++ [S]) := by
    simp
  have hmem1 : ∀ m ∈ (gmm_loop c.max_memory_messages c.messages.reverse []).1,
      m.sticky = false → m ∈ post := by
    intro m hm hms
    rw [hmsg, hrev] at hm
    rcases gmm_loop_nonsticky_before_marker c.max_memory_messages post.reverse
        (pre.reverse ++ [S]) [] mk
        (fun m hm => hpost m (List.mem_reverse.mp hm)) hmk hmks m hm hms with h | h
    · cases h
    · exact List.mem_reverse.mp h
  have hhd : S ∈ (gmm_loop c.max_memory_messages c.messages.reverse []).1
      ∨ (gmm_loop c.max_memory_messages c.messages.reverse []).2 = true := by
    rw [hmsg, List.reverse_cons]
    exact gmm_loop_last_sticky_mem c.max_memory_messages _ [] S hsticky
  constructor
  · intro m hm hms
    simp only [AIConversation.get_memory_messages, List.mem_reverse] at hm
    by_cases hflag : (gmm_loop c.max_memory_messages c.messages.reverse []).2
    · rw [if_pos hflag] at hm
      rcases List.mem_append.mp hm with h | h
      · exact Or.inr (hmem1 m h hms)
      · rw [hmsg] at h
        simp only [List.mem_singleton] at h
        exact Or.inl h
    · rw [if_neg hflag] at hm
      exact Or.inr (hmem1 m hm hms)
  · simp only [AIConversation.get_memory_messages, List.mem_reverse]
    rcases hhd with h | h
    · by_cases hflag : (gmm_loop c.max_memory_messages c.messages.reverse []).2
      · rw [if_pos hflag]
        exact List.mem_append_left _ h
      · rw [if_neg hflag]
        exact h
    · rw [if_pos h]
      refine List.mem_append_right _ ?_
      rw [hmsg]
      simp

/-- Witness for the amended C2: in `c2wconv` (sticky system "S",
sticky "X", marker, "u1", `max_memory_messages = 1`) the system
message is part of the window. -/
theorem C2_topic_boundary_witness :
    mS_st ∈ c2wconv.get_memory_messages :=
  (C2_topic_boundary c2wconv mS_st mMarker [mX_st] [mU1] (by decide) (by decide)
    (by decide) (by decide) (by decide)).2

/-- Claim C6 (amended): when a user or assistant text message is
appended to a conversation whose store length already exceeds
`max_memory_messages + 2`, the token estimate of the message at index
`len - max_memory_messages - 1` from the start (Python
`messages[-max_memory_messages-1]`, evaluated before the append) is
subtracted from the memory-scoped counters AND from the all-time
per-role counter (`user_tokens` / `assistant_tokens`), but not from
`total_tokens`; appending an internal message never triggers any
eviction accounting and changes no counter. -/
theorem C6_eviction_accounting (tok : String → Nat) (rf : String → Option String)
    (c : AIConversation) (txt : String)
    (ht : ¬ txt = "")
    (hlen : c.messages.length > c.max_memory_messages + 2) :
    ((c.add_message tok rf AIC_ROLE_USER txt AIC_TYPE_TEXT none false).1.user_tokens
        = c.user_tokens + (tok txt : Int) - evictedTokens c ∧
      (c.add_message tok rf AIC_ROLE_USER txt AIC_TYPE_TEXT none false).1.total_tokens
        = c.total_tokens + (tok txt : Int) ∧
      (c.add_message tok rf AIC_ROLE_USER txt AIC_TYPE_TEXT none false).1.memory_user_tokens
        = c.memory_user_tokens + (tok txt : Int) - evictedTokens c ∧
      (c.add_message tok rf AIC_ROLE_USER txt AIC_TYPE_TEXT none false).1.memory_total_tokens
        = c.memory_total_tokens + (tok txt : Int) - evictedTokens c) ∧
    ((c.add_message tok rf AIC_ROLE_ASSISTANT txt AIC_TYPE_TEXT none false).1.assistant_tokens
        = c.assistant_tokens + (tok txt : Int) - evictedTokens c ∧
      (c.add_message tok rf AIC_ROLE_ASSISTANT txt AIC_TYPE_TEXT none false).1.total_tokens
        = c.total_tokens + (tok txt : Int) ∧
      (c.add_message tok rf AIC_ROLE_ASSISTANT txt AIC_TYPE_TEXT none false).1.memory_assistant_tokens
        = c.memory_assistant_tokens + (tok txt : Int) - evictedTokens c ∧
      (c.add_message tok rf AIC_ROLE_ASSISTANT txt AIC_TYPE_TEXT none false).1.memory_total_tokens
        = c.memory_total_tokens + (tok txt : Int) - evictedTokens c) ∧
    ((c.add_message tok rf AIC_ROLE_INTERNAL txt AIC_TYPE_INTERNAL none false).1
        = { c with messages := c.messages ++
              [⟨AIC_ROLE_INTERNAL, ⟨AIC_TYPE_INTERNAL, none, txt⟩, false, 0, true⟩] }) := by
  have hmku := AIMessage.make_text_ok tok rf AIC_ROLE_USER txt false (Or.inl rfl) ht
  have hmka := AIMessage.make_text_ok tok rf AIC_ROLE_ASSISTANT txt false
    (Or.inr (Or.inl rfl)) ht
  have hmki := AIMessage.make_internal_ok tok rf AIC_ROLE_INTERNAL txt false
    (Or.inr (Or.inr (Or.inr (Or.inr rfl)))) ht
  refine ⟨?_, ?_, ?_⟩
  · unfold AIConversation.add_message
    rw [if_neg (not_not_intro (Or.inl rfl)), hmku]
    dsimp only
    rw [if_neg (by decide : ¬ (AIC_ROLE_USER = AIC_ROLE_SYSTEM ∨
          AIC_ROLE_USER = AIC_ROLE_DEVELOPER)),
      if_pos (⟨hlen, by decide⟩ :
        c.messages.length > c.max_memory_messages + 2 ∧
          ¬ AIC_ROLE_USER = AIC_ROLE_INTERNAL),
      if_pos (show AIC_ROLE_USER = AIC_ROLE_USER from rfl)]
    exact ⟨rfl, rfl, rfl, rfl⟩
  · unfold AIConversation.add_message
    rw [if_neg (not_not_intro (Or.inr (Or.inl rfl))), hmka]
    dsimp only
    rw [if_neg (by decide : ¬ (AIC_ROLE_ASSISTANT = AIC_ROLE_SYSTEM ∨
          AIC_ROLE_ASSISTANT = AIC_ROLE_DEVELOPER)),
      if_pos (⟨hlen, by decide⟩ :
        c.messages.length > c.max_memory_messages + 2 ∧
          ¬ AIC_ROLE_ASSISTANT = AIC_ROLE_INTERNAL),
      if_neg (by decide : ¬ AIC_ROLE_ASSISTANT = AIC_ROLE_USER),
      if_pos (show AIC_ROLE_ASSISTANT = AIC_ROLE_ASSISTANT from rfl)]
    exact ⟨rfl, rfl, rfl, rfl⟩
  · unfold AIConversation.add_message
    rw [if_neg (not_not_intro (show AIC_ROLE_INTERNAL = AIC_ROLE_USER ∨
        AIC_ROLE_INTERNAL = AIC_ROLE_ASSISTANT ∨ AIC_ROLE_INTERNAL = AIC_ROLE_SYSTEM ∨
        AIC_ROLE_INTERNAL = AIC_ROLE_INTERNAL ∨ AIC_ROLE_INTERNAL = AIC_ROLE_DEVELOPER from
        Or.inr (Or.inr (Or.inr (Or.inl rfl))))), hmki]
    dsimp only
    rw [if_neg (by decide : ¬ (AIC_ROLE_INTERNAL = AIC_ROLE_SYSTEM ∨
          AIC_ROLE_INTERNAL = AIC_ROLE_DEVELOPER))]
    rw [if_neg (show ¬ (c.messages.length > c.max_memory_messages + 2 ∧
          ¬ AIC_ROLE_INTERNAL = AIC_ROLE_INTERNAL) from fun hh => hh.2 rfl)]
    rw [if_pos (Or.inr (Or.inr rfl) : AIC_ROLE_INTERNAL = AIC_ROLE_USER ∨
          AIC_ROLE_INTERNAL = AIC_ROLE_ASSISTANT ∨
          AIC_ROLE_INTERNAL = AIC_ROLE_INTERNAL),
      if_neg (by decide : ¬ AIC_ROLE_INTERNAL = AIC_ROLE_USER),
      if_neg (by decide : ¬ AIC_ROLE_INTERNAL = AIC_ROLE_ASSISTANT),
      if_neg (by decide : ¬ AIC_ROLE_INTERNAL = AIC_ROLE_SYSTEM)]

/-- Witness for the amended C6: appending "eeeeee" to the concrete
five-message conversation `c6conv` updates the counters exactly as the
amended claim computes them. -/
theorem C6_eviction_accounting_witness :
    (c6conv.add_message tokLen rfNone AIC_ROLE_USER "eeeeee" AIC_TYPE_TEXT
        none false).1.user_tokens
      = c6conv.user_tokens + (tokLen "eeeeee" : Int) - evictedTokens c6conv ∧
    (c6conv.add_message tokLen rfNone AIC_ROLE_INTERNAL "eeeeee" AIC_TYPE_INTERNAL
        none false).1
      = { c6conv with messages := c6conv.messages ++
            [⟨AIC_ROLE_INTERNAL, ⟨AIC_TYPE_INTERNAL, none, "eeeeee"⟩, false, 0, true⟩] } :=
  ⟨(C6_eviction_accounting tokLen rfNone c6conv "eeeeee" (by decide) (by decide)).1.1,
   (C6_eviction_accounting tokLen rfNone c6conv "eeeeee" (by decide) (by decide)).2.2⟩

/-- Claim C8 (amended): for every successfully constructed message,
`estimated_tokens` is computed once at construction as the external
tokenizer count of the text for text content, 765 PLUS the tokenizer
count of the caption text for image content, and 0 for internal
content; the `set_role` / `set_sticky` / `set_content` mutators never
change it. -/
theorem C8_estimated_tokens (tok : String → Nat) (rf : String → Option String)
    (role t ty : String) (u : Option String) (st : Bool) (m : AIMessage)
    (h : AIMessage.make tok rf role t ty u st = .ok m) :
    (ty = AIC_TYPE_TEXT → m.estimated_tokens = tok t) ∧
    (ty = AIC_TYPE_IMAGE_URL → m.estimated_tokens = 765 + tok t) ∧
    (ty = AIC_TYPE_INTERNAL → m.estimated_tokens = 0) ∧
    (∀ r2, (m.set_role r2).estimated_tokens = m.estimated_tokens) ∧
    (∀ s2, (m.set_sticky s2).estimated_tokens = m.estimated_tokens) ∧
    (∀ cnt, (m.set_content cnt).estimated_tokens = m.estimated_tokens) := by
  refine ⟨?_, ?_, ?_, fun r2 => rfl, fun s2 => rfl, fun cnt => rfl⟩ <;>
    intro hty <;> subst hty <;> unfold AIMessage.make at h
  · rw [if_neg (by decide : ¬ (AIC_TYPE_TEXT = AIC_TYPE_IMAGE_URL)),
      if_neg (by decide : ¬ (AIC_TYPE_TEXT = AIC_TYPE_INTERNAL)), if_pos rfl] at h
    split at h
    · exact absurd h (by simp)
    · split at h
      · exact absurd h (by simp)
      · simp only [Except.ok.injEq] at h
        rw [← h]
  · rw [if_pos rfl] at h
    split at h
    · exact absurd h (by simp)
    · split at h
      · exact absurd h (by simp)
      · split at h
        · exact absurd h (by simp)
        · simp only [Except.ok.injEq] at h
          rw [← h]
          rfl
  · rw [if_neg (by decide : ¬ (AIC_TYPE_INTERNAL = AIC_TYPE_IMAGE_URL)),
      if_pos rfl] at h
    split at h
    · exact absurd h (by simp)
    · split at h
      · exact absurd h (by simp)
      · simp only [Except.ok.injEq] at h
        rw [← h]

/-- Witness for the amended C8: a text message "yo" (2 tokens under
the length tokenizer) and its mutated variants. -/
theorem C8_estimated_tokens_witness :
    (⟨AIC_ROLE_USER, ⟨AIC_TYPE_TEXT, none, "yo"⟩, false, 2, false⟩ :
        AIMessage).estimated_tokens = tokLen "yo" ∧
    ((⟨AIC_ROLE_USER, ⟨AIC_TYPE_TEXT, none, "yo"⟩, false, 2, false⟩ :
        AIMessage).set_sticky true).estimated_tokens = 2 ∧
    ((⟨AIC_ROLE_USER, ⟨AIC_TYPE_TEXT, none, "yo"⟩, false, 2, false⟩ :
        AIMessage).set_role AIC_ROLE_ASSISTANT).estimated_tokens = 2 :=
  have h8 := C8_estimated_tokens tokLen rfNone AIC_ROLE_USER "yo" AIC_TYPE_TEXT none false
    ⟨AIC_ROLE_USER, ⟨AIC_TYPE_TEXT, none, "yo"⟩, false, 2, false⟩ (by rfl)
  ⟨h8.1 rfl, (h8.2.2.2.2.1 true).trans (h8.1 rfl), (h8.2.2.2.1 AIC_ROLE_ASSISTANT).trans
    (h8.1 rfl)⟩

/-- Claim C9: whenever `add_message` raises (invalid role, invalid or
unsupported content type, missing payload — i.e. whenever the call
reports an error), the conversation is exactly as it was before the
call: same message list and same value for every token counter.  The
embedding returns the state of `self` after the call, and the source
validates before mutating, so an error implies an unchanged state. -/
theorem C9_error_atomicity (tok : String → Nat) (rf : String → Option String)
    (c : AIConversation) (role txt ty : String) (u : Option String) (st : Bool)
    (h : (c.add_message tok rf role txt ty u st).2.isSome = true) :
    (c.add_message tok rf role txt ty u st).1 = c := by
  unfold AIConversation.add_message at h ⊢
  by_cases hrole : (role = AIC_ROLE_USER ∨ role = AIC_ROLE_ASSISTANT ∨
      role = AIC_ROLE_SYSTEM ∨ role = AIC_ROLE_INTERNAL ∨ role = AIC_ROLE_DEVELOPER)
  · rw [if_neg (not_not_intro hrole)] at h ⊢
    rcases hmk : AIMessage.make tok rf role txt ty u st with e | msg
    · rfl
    · rw [hmk] at h
      dsimp only at h
      exfalso
      split at h
      · simp at h
      · split at h
        · simp at h
        · split at h
          · simp at h
          · simp at h
  · rw [if_pos hrole] at h ⊢

/-- Witness for C9: adding a message with the unknown role "wizard" to
the concrete conversation `c9conv` leaves it untouched. -/
theorem C9_error_atomicity_witness :
    (c9conv.add_message tokLen rfNone "wizard" "hi" AIC_TYPE_TEXT none false).1 = c9conv :=
  C9_error_atomicity tokLen rfNone c9conv "wizard" "hi" AIC_TYPE_TEXT none false (by decide)

/-- Claim C10: right after construction and after every successful
`change_system_message`, the message at index 0 is a sticky
system-role text message (even though the public construction default
for `sticky` is false); replacing the system message through
`add_message` with role `system` or `developer` instead installs it
with the caller-supplied sticky flag (whose Python default is
`False`). -/
theorem C10_system_slot_stickiness (tok : String → Nat) (rf : String → Option String)
    (sm : Option String) (mm : Nat) (c : AIConversation) (s txt : String) (st : Bool)
    (hs : ¬ s = "") (htxt : ¬ txt = "") :
    ((AIConversation.make tok sm mm).messages.head?.map
        (fun m => (m.role, m.content.type, m.sticky)))
      = some (AIC_ROLE_SYSTEM, AIC_TYPE_TEXT, true) ∧
    ((c.change_system_message tok s).toOption.map
        (fun c2 => c2.messages.head?.map (fun m => (m.role, m.content.type, m.sticky))))
      = some (some (AIC_ROLE_SYSTEM, AIC_TYPE_TEXT, true)) ∧
    (((c.add_message tok rf AIC_ROLE_SYSTEM txt AIC_TYPE_TEXT none st).1).messages.head?.map
        (fun m => (m.role, m.content.type, m.sticky)))
      = some (AIC_ROLE_SYSTEM, AIC_TYPE_TEXT, st) ∧
    (((c.add_message tok rf AIC_ROLE_DEVELOPER txt AIC_TYPE_TEXT none st).1).messages.head?.map
        (fun m => (m.role, m.content.type, m.sticky)))
      = some (AIC_ROLE_DEVELOPER, AIC_TYPE_TEXT, st) := by
  have hsysrole : AIC_ROLE_SYSTEM = AIC_ROLE_USER ∨ AIC_ROLE_SYSTEM = AIC_ROLE_ASSISTANT ∨
      AIC_ROLE_SYSTEM = AIC_ROLE_SYSTEM ∨ AIC_ROLE_SYSTEM = AIC_ROLE_DEVELOPER ∨
      AIC_ROLE_SYSTEM = AIC_ROLE_INTERNAL := Or.inr (Or.inr (Or.inl rfl))
  have hdevrole : AIC_ROLE_DEVELOPER = AIC_ROLE_USER ∨
      AIC_ROLE_DEVELOPER = AIC_ROLE_ASSISTANT ∨ AIC_ROLE_DEVELOPER = AIC_ROLE_SYSTEM ∨
      AIC_ROLE_DEVELOPER = AIC_ROLE_DEVELOPER ∨ AIC_ROLE_DEVELOPER = AIC_ROLE_INTERNAL :=
    Or.inr (Or.inr (Or.inr (Or.inl rfl)))
  refine ⟨?_, ?_, ?_, ?_⟩
  · unfold AIConversation.make
    rcases sm with _ | s0
    · dsimp only
      rw [AIMessage.make_text_ok tok (fun _ => none) AIC_ROLE_SYSTEM
        AIC_DEFAULT_SYSTEM_PROMPT true hsysrole (by decide)]
      rfl
    · dsimp only
      by_cases hp : 0 < (pyStrip s0).length
      · rw [if_pos hp, AIMessage.make_text_ok tok (fun _ => none) AIC_ROLE_SYSTEM
          (pyStrip s0) true hsysrole
          (fun hh => by rw [hh] at hp; simp at hp)]
        rfl
      · rw [if_neg hp, AIMessage.make_text_ok tok (fun _ => none) AIC_ROLE_SYSTEM
          AIC_DEFAULT_SYSTEM_PROMPT true hsysrole (by decide)]
        rfl
  · unfold AIConversation.change_system_message
    rw [AIMessage.make_text_ok tok (fun _ => none) AIC_ROLE_SYSTEM s true hsysrole hs]
    rcases c.messages with _ | ⟨m0, rest⟩ <;> rfl
  · unfold AIConversation.add_message
    rw [if_neg (not_not_intro (show AIC_ROLE_SYSTEM = AIC_ROLE_USER ∨
        AIC_ROLE_SYSTEM = AIC_ROLE_ASSISTANT ∨ AIC_ROLE_SYSTEM = AIC_ROLE_SYSTEM ∨
        AIC_ROLE_SYSTEM = AIC_ROLE_INTERNAL ∨ AIC_ROLE_SYSTEM = AIC_ROLE_DEVELOPER from
        Or.inr (Or.inr (Or.inl rfl)))),
      AIMessage.make_text_ok tok rf AIC_ROLE_SYSTEM txt st hsysrole htxt]
    dsimp only
    rw [if_pos (show AIC_ROLE_SYSTEM = AIC_ROLE_SYSTEM ∨
        AIC_ROLE_SYSTEM = AIC_ROLE_DEVELOPER from Or.inl rfl),
      if_neg (by decide : ¬ (AIC_ROLE_SYSTEM = AIC_ROLE_USER ∨
        AIC_ROLE_SYSTEM = AIC_ROLE_ASSISTANT ∨ AIC_ROLE_SYSTEM = AIC_ROLE_INTERNAL)),
      if_neg (by decide : ¬ AIC_ROLE_SYSTEM = AIC_ROLE_USER),
      if_neg (by decide : ¬ AIC_ROLE_SYSTEM = AIC_ROLE_ASSISTANT),
      if_pos (show AIC_ROLE_SYSTEM = AIC_ROLE_SYSTEM from rfl)]
    rcases c.messages with _ | ⟨m0, rest⟩ <;> rfl
  · unfold AIConversation.add_message
    rw [if_neg (not_not_intro (show AIC_ROLE_DEVELOPER = AIC_ROLE_USER ∨
        AIC_ROLE_DEVELOPER = AIC_ROLE_ASSISTANT ∨ AIC_ROLE_DEVELOPER = AIC_ROLE_SYSTEM ∨
        AIC_ROLE_DEVELOPER = AIC_ROLE_INTERNAL ∨
        AIC_ROLE_DEVELOPER = AIC_ROLE_DEVELOPER from
        Or.inr (Or.inr (Or.inr (Or.inr rfl))))),
      AIMessage.make_text_ok tok rf AIC_ROLE_DEVELOPER txt st hdevrole htxt]
    dsimp only
    rw [if_pos (show AIC_ROLE_DEVELOPER = AIC_ROLE_SYSTEM ∨
        AIC_ROLE_DEVELOPER = AIC_ROLE_DEVELOPER from Or.inr rfl),
      if_neg (by decide : ¬ (AIC_ROLE_DEVELOPER = AIC_ROLE_USER ∨
        AIC_ROLE_DEVELOPER = AIC_ROLE_ASSISTANT ∨
        AIC_ROLE_DEVELOPER = AIC_ROLE_INTERNAL)),
      if_neg (by decide : ¬ AIC_ROLE_DEVELOPER = AIC_ROLE_USER),
      if_neg (by decide : ¬ AIC_ROLE_DEVELOPER = AIC_ROLE_ASSISTANT),
      if_neg (by decide : ¬ AIC_ROLE_DEVELOPER = AIC_ROLE_SYSTEM)]
    rcases c.messages with _ | ⟨m0, rest⟩ <;> rfl

/-- Witness for C10 at concrete inputs: constructing with no supplied
system message, replacing through `change_system_message "T"` on
`c9conv`, and replacing through `add_message` with role `system`,
sticky `true`. -/
theorem C10_system_slot_stickiness_witness :
    ((AIConversation.make tokLen none 4).messages.head?.map
        (fun m => (m.role, m.content.type, m.sticky)))
      = some (AIC_ROLE_SYSTEM, AIC_TYPE_TEXT, true) ∧
    ((c9conv.change_system_message tokLen "T").toOption.map
        (fun c2 => c2.messages.head?.map (fun m => (m.role, m.content.type, m.sticky))))
      = some (some (AIC_ROLE_SYSTEM, AIC_TYPE_TEXT, true)) ∧
    (((c9conv.add_message tokLen rfNone AIC_ROLE_SYSTEM "T2" AIC_TYPE_TEXT none
        true).1).messages.head?.map (fun m => (m.role, m.content.type, m.sticky)))
      = some (AIC_ROLE_SYSTEM, AIC_TYPE_TEXT, true) :=
  have h10 := C10_system_slot_stickiness tokLen rfNone none 4 c9conv "T" "T2" true
    (by decide) (by decide)
  ⟨h10.1, h10.2.1, h10.2.2.1⟩

end AIConv
